import Mathlib

/-!
Shallow embedding of the `nowcasting_metrics` MAE pipeline
(`nowcasting_metrics/metrics/mae.py` and `nowcasting_metrics/utils.py`).

Modelling choices:
* Timestamps are natural numbers (minutes since an arbitrary epoch).
* SQL float expressions are modelled by `FV := Option ℚ`: `some q` is an
  ordinary finite value, `none` models a value that is not an ordinary
  number (IEEE NaN flowing through arithmetic, and the SQL NULL produced
  by `AVG` over an empty set).  Arithmetic propagates `none`; a comparison
  whose operand is `none` is false, matching `NaN > NaN = false`.
* A SQL query is modelled as a filter over the cartesian product of the
  relevant row lists; `AVG`/`COUNT` become `favg`/`List.length`.
* `session.add` is modelled by appending to `DB.metric_values`.
* Python keyword-argument checking at a call site is modelled explicitly:
  the list of parameter names of `save_metric_value_to_database` is taken
  from its `def` line in `nowcasting_metrics/utils.py`, and a call raises
  `TypeError` when it passes a keyword outside that list.
-/

namespace NowcastingMetrics

/-- A SQL float expression value: `some q` is a finite number, `none` models
NaN (or a NULL aggregate result).  -/
abbrev FV := Option ℚ

/-- Addition with NaN propagation. -/
def fadd : FV → FV → FV
  | some a, some b => some (a + b)
  | _, _ => none

/-- Subtraction with NaN propagation. -/
def fsub : FV → FV → FV
  | some a, some b => some (a - b)
  | _, _ => none

/-- Absolute value with NaN propagation (SQL `func.abs`). -/
def fabsv : FV → FV
  | some a => some |a|
  | none => none

/-- Division by a constant with NaN propagation. -/
def fdivc : FV → ℚ → FV
  | some a, c => some (a / c)
  | none, _ => none

/-- Strict greater-than on SQL floats: any comparison involving NaN is
false, matching `NaN + 1 > NaN` evaluating to false. -/
def fgt : FV → FV → Bool
  | some a, some b => decide (b < a)
  | _, _ => false

/-- Sum of a list of SQL float expressions; NaN anywhere poisons the sum. -/
def fsum (l : List FV) : FV := l.foldr fadd (some 0)

/-- SQL `AVG` over the listed expression values: NULL on the empty set,
otherwise the sum divided by the row count (NaN-poisoned if any row is
NaN).  The aggregated expressions are never SQL NULL in this code base
(the underlying columns are non-nullable), so `COUNT` is the length. -/
def favg (l : List FV) : FV :=
  if l.isEmpty then none else fdivc (fsum l) (l.length : ℚ)

/-- One ground-truth reading (`GSPYieldSQL` joined with its `LocationSQL`,
whose `gsp_id` we inline). -/
structure GSPYield where
  gsp_id : ℕ
  datetime_utc : ℕ
  solar_generation_kw : FV
  regime : String
deriving DecidableEq

/-- One row of the latest-forecast view (`ForecastValueLatestSQL`). -/
structure ForecastValueLatest where
  gsp_id : ℕ
  target_time : ℕ
  expected_power_generation_megawatts : FV
deriving DecidableEq

/-- One archived forecast row (`ForecastValueSQL`, with the `gsp_id` of its
parent forecast's location inlined). -/
structure ForecastValue where
  gsp_id : ℕ
  target_time : ℕ
  created_utc : ℕ
  expected_power_generation_megawatts : FV
deriving DecidableEq

/-- A datetime interval (`DatetimeInterval`). -/
structure DatetimeInterval where
  start_datetime_utc : ℕ
  end_datetime_utc : ℕ
deriving DecidableEq

/-- One persisted metric value row (`MetricValueSQL` as constructed in
`save_metric_value_to_database`).  Note the type has no forecast-horizon
field: the constructor call in `nowcasting_metrics/utils.py` sets only
`value`, `number_of_data_points`, `metric`, `datetime_interval` and
optionally `location`. -/
structure MetricValue where
  value : FV
  number_of_data_points : ℕ
  metric_name : String
  start_datetime_utc : ℕ
  end_datetime_utc : ℕ
  location : Option ℕ
deriving DecidableEq

/-- The backing store: the three queried tables plus the appended metric
values. -/
structure DB where
  gsp_yields : List GSPYield
  forecast_values_latest : List ForecastValueLatest
  forecast_values : List ForecastValue
  metric_values : List MetricValue
deriving DecidableEq

/-- `save_metric_value_to_database` (`nowcasting_metrics/utils.py`):
append one `MetricValue` row; attach the location only when given. -/
def save_metric_value_to_database (db : DB) (value : FV)
    (number_of_data_points : ℕ) (metric_name : String)
    (datetime_interval : DatetimeInterval) (location : Option ℕ) : DB :=
  { db with
    metric_values := db.metric_values ++
      [{ value := value
         number_of_data_points := number_of_data_points
         metric_name := metric_name
         start_datetime_utc := datetime_interval.start_datetime_utc
         end_datetime_utc := datetime_interval.end_datetime_utc
         location := location }] }

/-- The parameter names of `save_metric_value_to_database`, read off its
signature in `nowcasting_metrics/utils.py`. -/
def save_metric_value_to_database_params : List String :=
  ["session", "value", "number_of_data_points", "metric",
   "datetime_interval", "location"]

/-- The keyword arguments passed at the call site inside
`make_mae_one_gsp_with_forecast_horizon` (`mae.py`, lines 136-144). -/
def horizon_save_call_kwargs : List String :=
  ["session", "value", "number_of_data_points", "datetime_interval",
   "metric", "location", "forecast_horizon_minutes"]

/-- A Python call succeeds only when every keyword it passes is a declared
parameter of the callee. -/
def kwargsAccepted (call params : List String) : Bool :=
  call.all (fun k => params.contains k)

/-- The error a Python call raises on an unexpected keyword argument. -/
def typeErrorMsg : String :=
  "TypeError: save_metric_value_to_database got an unexpected keyword " ++
  "argument forecast_horizon_minutes"

/-- Calling `save_metric_value_to_database` through Python keyword-argument
checking: the call raises `TypeError` before the body runs when it passes
a keyword that is not among the declared parameters. -/
def callSaveChecked (kwargs : List String) (db : DB) (value : FV) (n : ℕ)
    (metric_name : String) (di : DatetimeInterval) (location : Option ℕ) :
    Except String DB :=
  if kwargsAccepted kwargs save_metric_value_to_database_params then
    Except.ok (save_metric_value_to_database db value n metric_name di location)
  else
    Except.error typeErrorMsg

/-- Modelled from the spec: `filter_query_on_datetime_interval` lives in
`nowcasting_metrics/metrics/utils.py`, which is not part of the sources;
the spec states that interval bounds are inclusive on both ends. -/
def inInterval (di : DatetimeInterval) (t : ℕ) : Bool :=
  decide (di.start_datetime_utc ≤ t) && decide (t ≤ di.end_datetime_utc)

/-- Cartesian product of the ground-truth table with the latest-forecast
table, over which the MAE queries filter. -/
def gspForecastPairs (db : DB) : List (GSPYield × ForecastValueLatest) :=
  db.gsp_yields.flatMap (fun y =>
    db.forecast_values_latest.map (fun f => (y, f)))

/-- The absolute-error expression built by `make_mae_query`:
`abs(expected_power_generation_megawatts - solar_generation_kw / 1000)`. -/
def make_mae_query_term (mw kw : FV) : FV :=
  fabsv (fsub mw (fdivc kw 1000))

/-- The joined row set of `make_mae_one_gsp`: ground truth joined with the
latest forecast on equal gsp id and equal timestamp, restricted to the
interval and the day-after regime.  The timestamp equality and the
interval restriction are modelled from the spec, standing in for the
missing `filter_query_on_datetime_interval`. -/
def oneGspRows (db : DB) (di : DatetimeInterval) (gsp_id : ℕ) :
    List (GSPYield × ForecastValueLatest) :=
  (gspForecastPairs db).filter (fun p =>
    p.1.gsp_id == gsp_id && p.2.gsp_id == gsp_id &&
    p.1.datetime_utc == p.2.target_time &&
    inInterval di p.1.datetime_utc && p.1.regime == "day-after")

/-- `make_mae_one_gsp`: current-forecast MAE for one site; persists one
`MetricValue` with the site attached and returns `(value, count)`. -/
def make_mae_one_gsp (db : DB) (di : DatetimeInterval) (gsp_id : ℕ) :
    DB × FV × ℕ :=
  let rows := oneGspRows db di gsp_id
  let value := favg (rows.map (fun p =>
    make_mae_query_term p.2.expected_power_generation_megawatts
      p.1.solar_generation_kw))
  let n := rows.length
  (save_metric_value_to_database db value n "Daily Latest MAE" di
    (some gsp_id), value, n)

/-- The joined row set of `make_mae_all_gsp`: ground truth joined with the
latest forecast on equal gsp id, both sides restricted to gsp id other
than 0, with the NaN-excluding filter
`solar_generation_kw + 1 > solar_generation_kw`, the interval restriction
and the day-after regime. -/
def allGspRows (db : DB) (di : DatetimeInterval) :
    List (GSPYield × ForecastValueLatest) :=
  (gspForecastPairs db).filter (fun p =>
    p.1.gsp_id != 0 && p.2.gsp_id != 0 && p.2.gsp_id == p.1.gsp_id &&
    fgt (fadd p.1.solar_generation_kw (some 1)) p.1.solar_generation_kw &&
    p.1.datetime_utc == p.2.target_time &&
    inInterval di p.1.datetime_utc && p.1.regime == "day-after")

/-- `make_mae_all_gsp`: current-forecast MAE over all sites except the
national id 0; persists one `MetricValue` with no location attached. -/
def make_mae_all_gsp (db : DB) (di : DatetimeInterval) : DB × FV × ℕ :=
  let rows := allGspRows db di
  let value := favg (rows.map (fun p =>
    make_mae_query_term p.2.expected_power_generation_megawatts
      p.1.solar_generation_kw))
  let n := rows.length
  (save_metric_value_to_database db value n "Daily Latest MAE All GSPs" di
    none, value, n)

/-- Modelled from the spec: `make_pvlive_subquery` lives in
`nowcasting_metrics/metrics/utils.py`, which is not part of the sources;
the spec describes it as the ground-truth view for one site and interval
filtered to the given regime. -/
def make_pvlive_subquery (db : DB) (di : DatetimeInterval) (gsp_id : ℕ)
    (regime : String) : List GSPYield :=
  db.gsp_yields.filter (fun y =>
    y.gsp_id == gsp_id && inInterval di y.datetime_utc &&
    y.regime == regime)

/-- The joined row set of `make_pvlive_mae`: the day-after view joined with
the in-day view of the same site and interval on equal timestamp. -/
def pvliveRows (db : DB) (di : DatetimeInterval) (gsp_id : ℕ) :
    List (GSPYield × GSPYield) :=
  ((make_pvlive_subquery db di gsp_id "day-after").flatMap (fun a =>
    (make_pvlive_subquery db di gsp_id "in-day").map (fun b => (a, b)))).filter
    (fun p => p.1.datetime_utc == p.2.datetime_utc)

/-- `make_pvlive_mae`: MAE between the day-after and in-day revisions of
the ground truth for one site, both sides divided by 1000; persists one
`MetricValue` with the site attached. -/
def make_pvlive_mae (db : DB) (di : DatetimeInterval) (gsp_id : ℕ) :
    DB × FV × ℕ :=
  let rows := pvliveRows db di gsp_id
  let value := favg (rows.map (fun p =>
    fabsv (fsub (fdivc p.1.solar_generation_kw 1000)
      (fdivc p.2.solar_generation_kw 1000))))
  let n := rows.length
  (save_metric_value_to_database db value n "PVLive MAE" di (some gsp_id),
    value, n)

/-- Modelled from the spec: `make_gsp_sub_query` lives in
`nowcasting_metrics/metrics/utils.py`, which is not part of the sources;
the spec describes it as the ground-truth view for one site and interval
restricted to the day-after regime. -/
def make_gsp_sub_query (db : DB) (di : DatetimeInterval) (gsp_id : ℕ) :
    List GSPYield :=
  db.gsp_yields.filter (fun y =>
    y.gsp_id == gsp_id && inInterval di y.datetime_utc &&
    y.regime == "day-after")

/-- Modelled from the spec: `make_forecast_sub_query` lives in
`nowcasting_metrics/metrics/utils.py`, which is not part of the sources;
the spec describes it as the forecasts of one site whose target time lies
in the interval and whose forecast horizon (target time minus creation
time) falls in the fixed-width 30-minute bucket starting at the requested
horizon. -/
def make_forecast_sub_query (db : DB) (di : DatetimeInterval) (gsp_id : ℕ)
    (forecast_horizon_minutes : ℕ) : List ForecastValue :=
  db.forecast_values.filter (fun f =>
    f.gsp_id == gsp_id && inInterval di f.target_time &&
    decide ((forecast_horizon_minutes : ℤ) ≤
      (f.target_time : ℤ) - (f.created_utc : ℤ)) &&
    decide ((f.target_time : ℤ) - (f.created_utc : ℤ) <
      (forecast_horizon_minutes : ℤ) + 30))

/-- The joined row set of `make_mae_one_gsp_with_forecast_horizon`: the
ground-truth subquery joined with the horizon-bucketed forecast subquery
on equal timestamp. -/
def horizonRows (db : DB) (di : DatetimeInterval) (gsp_id : ℕ)
    (forecast_horizon_minutes : ℕ) : List (GSPYield × ForecastValue) :=
  ((make_gsp_sub_query db di gsp_id).flatMap (fun y =>
    (make_forecast_sub_query db di gsp_id forecast_horizon_minutes).map
      (fun f => (y, f)))).filter
    (fun p => p.1.datetime_utc == p.2.target_time)

/-- `make_mae_one_gsp_with_forecast_horizon`: horizon-bucketed MAE for one
site.  Its save call passes the keyword `forecast_horizon_minutes`, which
is checked against the declared parameters of
`save_metric_value_to_database`; an unexpected keyword raises `TypeError`
and nothing is persisted. -/
def make_mae_one_gsp_with_forecast_horizon (db : DB)
    (di : DatetimeInterval) (gsp_id : ℕ)
    (forecast_horizon_minutes : ℕ) : Except String (DB × FV × ℕ) :=
  let rows := horizonRows db di gsp_id forecast_horizon_minutes
  let value := favg (rows.map (fun p =>
    make_mae_query_term p.2.expected_power_generation_megawatts
      p.1.solar_generation_kw))
  let n := rows.length
  match callSaveChecked horizon_save_call_kwargs db value n
    "Daily Latest MAE" di (some gsp_id) with
  | Except.ok db2 => Except.ok (db2, value, n)
  | Except.error e => Except.error e

/-- Sequential execution of the orchestrator's partitions, as the Python
interpreter runs them: each partition reads and updates the store; the
first uncaught exception aborts the remaining partitions, keeping the
records persisted so far. -/
def runPartitions : List (DB → Except String (DB × FV × ℕ)) → DB →
    DB × Option String
  | [], db => (db, none)
  | f :: fs, db =>
    match f db with
    | Except.ok (db2, _, _) => runPartitions fs db2
    | Except.error e => (db, some e)

/-- A partition whose Python code raises no exception. -/
def liftPartition (f : DB → DB × FV × ℕ) :
    DB → Except String (DB × FV × ℕ) :=
  fun db => Except.ok (f db)

/-- Python `range(0, stop, 30)`: empty when `stop ≤ 0`, otherwise the
multiples of 30 below `stop`. -/
def pyRangeStep30 (stop : ℤ) : List ℕ :=
  if stop ≤ 0 then [] else
    (List.range ((stop.toNat + 29) / 30)).map (fun k => k * 30)

/-- `make_mae`: the orchestrator.  Per-site current-forecast MAE for gsp
ids `0..n_gsps`, then the all-sites aggregate, then one horizon-bucketed
national computation per horizon in `range(0, max, 30)`, then the
revision comparison for gsp ids `0..n_gsps`; each partition persists its
own record, and an exception in one partition aborts the rest. -/
def make_mae (db : DB) (di : DatetimeInterval) (n_gsps : ℕ)
    (max_forecast_horizon_minutes : ℤ) : DB × Option String :=
  runPartitions
    ((List.range (n_gsps + 1)).map (fun g =>
        liftPartition (fun d => make_mae_one_gsp d di g))
      ++ [liftPartition (fun d => make_mae_all_gsp d di)]
      ++ (pyRangeStep30 max_forecast_horizon_minutes).map (fun h =>
        fun d => make_mae_one_gsp_with_forecast_horizon d di 0 h)
      ++ (List.range (n_gsps + 1)).map (fun g =>
        liftPartition (fun d => make_pvlive_mae d di g)))
    db

/-- An empty store. -/
def emptyDb : DB :=
  { gsp_yields := [], forecast_values_latest := [], forecast_values := [],
    metric_values := [] }

/-- A well-formed one-day interval. -/
def di0 : DatetimeInterval :=
  { start_datetime_utc := 0, end_datetime_utc := 1440 }

/-- A malformed interval whose start is at or after its end. -/
def badDi : DatetimeInterval :=
  { start_datetime_utc := 1440, end_datetime_utc := 0 }

/-- One valid ground-truth row for gsp 1 at minute 30 reading 1000 kW. -/
def unitYield : GSPYield := ⟨1, 30, some 1000, "day-after"⟩

/-- One latest-forecast row for gsp 1 at minute 30 predicting 1 MW. -/
def unitForecast : ForecastValueLatest := ⟨1, 30, some 1⟩

/-- A store holding exactly one matched (observation, forecast) pair. -/
def unitDb : DB := ⟨[unitYield], [unitForecast], [], []⟩

/-- A ground-truth row whose reading is NaN (the sentinel `none`). -/
def nanYield : GSPYield := ⟨2, 30, none, "day-after"⟩

/-- A store for the all-sites aggregate: one valid matched pair at gsp 2. -/
def db8 : DB := ⟨[⟨2, 30, some 1000, "day-after"⟩], [⟨2, 30, some 1⟩], [], []⟩

/-- A store with identical day-after and in-day readings for gsp 1. -/
def db7 : DB :=
  ⟨[⟨1, 30, some 500, "day-after"⟩, ⟨1, 30, some 500, "in-day"⟩], [], [], []⟩

/-- A store whose gsp-1 readings are NaN in both regimes, with a matching
latest forecast. -/
def db10 : DB :=
  ⟨[⟨1, 30, none, "day-after"⟩, ⟨1, 30, none, "in-day"⟩], [⟨1, 30, some 2⟩],
    [], []⟩

/-- Summing a list of zero values gives zero. -/
lemma fsum_zeros (l : List FV) (hz : ∀ v ∈ l, v = some 0) :
    fsum l = some 0 := by
  induction l with
  | nil => rfl
  | cons a t ih =>
    have ha : a = some 0 := hz a (List.mem_cons_self a t)
    have ht : fsum t = some 0 :=
      ih (fun v hv => hz v (List.mem_cons_of_mem a hv))
    show fadd a (fsum t) = some 0
    rw [ha, ht]
    norm_num [fadd]

/-- The average of a nonempty list of zero values is zero. -/
lemma favg_zeros (l : List FV) (hne : l ≠ []) (hz : ∀ v ∈ l, v = some 0) :
    favg l = some 0 := by
  rw [favg, if_neg (by simpa [List.isEmpty_iff] using hne), fsum_zeros l hz]
  norm_num [fdivc]

/-- C1, counterexample: at horizon 0 the horizon-bucketed national
computation does not persist a `MetricValue` at all — its save call
raises `TypeError`, because it passes the keyword
`forecast_horizon_minutes` that `save_metric_value_to_database` does not
declare. -/
theorem c1_counterexample :
    make_mae_one_gsp_with_forecast_horizon emptyDb di0 0 0 =
      Except.error typeErrorMsg := by
  rfl

/-- C1, amended: for every store, interval, site and horizon, the
horizon-bucketed MAE computation raises `TypeError` at its save call
(whose keyword `forecast_horizon_minutes` is not among the declared
parameters of `save_metric_value_to_database`), so no `MetricValue` is
ever persisted with a horizon attached — indeed the persisted record
shape has no horizon field. -/
theorem c1_thm (db : DB) (di : DatetimeInterval) (g h : ℕ) :
    make_mae_one_gsp_with_forecast_horizon db di g h =
        Except.error typeErrorMsg ∧
      kwargsAccepted horizon_save_call_kwargs
        save_metric_value_to_database_params = false := by
  have hk : kwargsAccepted horizon_save_call_kwargs
      save_metric_value_to_database_params = false := by rfl
  refine ⟨?_, hk⟩
  simp [make_mae_one_gsp_with_forecast_horizon, callSaveChecked, hk]

/-- C2, counterexample: on an empty store the invocation
`make_mae emptyDb di0 6 480` fails at its first horizon partition, and
none of the seven revision-comparison partitions that follow it persist
anything — while the same invocation with no horizon partitions persists
all seven revision records.  A failure in one partition therefore does
prevent the remaining partitions. -/
theorem c2_counterexample :
    (make_mae emptyDb di0 6 480).2 = some typeErrorMsg ∧
      ((make_mae emptyDb di0 6 480).1.metric_values.filter
        (fun mv => mv.metric_name == "PVLive MAE")).length = 0 ∧
      ((make_mae emptyDb di0 6 0).1.metric_values.filter
        (fun mv => mv.metric_name == "PVLive MAE")).length = 7 :=
  ⟨rfl, rfl, rfl⟩

/-- C2, amended: the orchestrator's partition loop has no exception
handling, so once a partition fails, none of the remaining partitions of
the same invocation is computed or persisted: the invocation stops with
the store exactly as the failing partition left it. -/
theorem c2_thm (fs gs : List (DB → Except String (DB × FV × ℕ)))
    (db db1 : DB) (e : String) (hfail : runPartitions fs db = (db1, some e)) :
    runPartitions (fs ++ gs) db = (db1, some e) := by
  revert hfail
  induction fs generalizing db with
  | nil =>
    intro hfail
    simp [runPartitions] at hfail
  | cons f t ih =>
    intro hfail
    cases hres : f db with
    | ok r =>
      obtain ⟨db2, v, n⟩ := r
      simp only [List.cons_append, runPartitions, hres] at hfail ⊢
      exact ih db2 hfail
    | error e2 =>
      simp only [List.cons_append, runPartitions, hres] at hfail ⊢
      exact hfail

/-- C2, witness: a concrete failing horizon partition followed by a
revision partition — the run stops at the failure with the store
untouched, so the revision partition never persists its record. -/
theorem c2_witness :
    runPartitions
      ([fun d => make_mae_one_gsp_with_forecast_horizon d di0 0 0] ++
        [liftPartition (fun d => make_pvlive_mae d di0 0)]) emptyDb =
      (emptyDb, some typeErrorMsg) :=
  c2_thm [fun d => make_mae_one_gsp_with_forecast_horizon d di0 0 0]
    [liftPartition (fun d => make_pvlive_mae d di0 0)]
    emptyDb emptyDb typeErrorMsg rfl

/-- C5: the orchestrator invoked with `n_gsps = 6` and
`max_forecast_horizon_minutes = 480` schedules
`7 + 1 + 16 + 7 = 31` partitions, but the invocation aborts with
`TypeError` at the first horizon partition, having persisted only the 8
records of the per-site and aggregate partitions — not 31. -/
theorem c5_thm :
    (make_mae emptyDb di0 6 480).2 = some typeErrorMsg ∧
      (make_mae emptyDb di0 6 480).1.metric_values.length = 8 ∧
      (List.range (6 + 1)).length + 1 + (pyRangeStep30 480).length +
        (List.range (6 + 1)).length = 31 :=
  ⟨rfl, rfl, rfl⟩

/-- C3, counterexample: the horizon partition on an empty store has a join
with zero matched rows, yet it raises `TypeError` instead of persisting a
null-valued record. -/
theorem c3_counterexample :
    horizonRows emptyDb di0 0 0 = [] ∧
      make_mae_one_gsp_with_forecast_horizon emptyDb di0 0 0 =
        Except.error typeErrorMsg :=
  ⟨rfl, rfl⟩

/-- C3, amended: for the per-site, all-sites and revision partitions, a
join with zero matched rows yields `value = none` and
`sample_count = 0` without any error, and a `MetricValue` row carrying
the null value and zero count is still persisted; the horizon partition
is excluded because its save call always raises `TypeError`. -/
theorem c3_thm (db : DB) (di : DatetimeInterval) (g : ℕ) :
    (oneGspRows db di g = [] →
      make_mae_one_gsp db di g =
        ({ db with metric_values := db.metric_values ++
            [⟨none, 0, "Daily Latest MAE", di.start_datetime_utc,
              di.end_datetime_utc, some g⟩] }, none, 0)) ∧
    (allGspRows db di = [] →
      make_mae_all_gsp db di =
        ({ db with metric_values := db.metric_values ++
            [⟨none, 0, "Daily Latest MAE All GSPs", di.start_datetime_utc,
              di.end_datetime_utc, none⟩] }, none, 0)) ∧
    (pvliveRows db di g = [] →
      make_pvlive_mae db di g =
        ({ db with metric_values := db.metric_values ++
            [⟨none, 0, "PVLive MAE", di.start_datetime_utc,
              di.end_datetime_utc, some g⟩] }, none, 0)) := by
  refine ⟨fun h => ?_, fun h => ?_, fun h => ?_⟩
  · simp [make_mae_one_gsp, h, favg, save_metric_value_to_database]
  · simp [make_mae_all_gsp, h, favg, save_metric_value_to_database]
  · simp [make_pvlive_mae, h, favg, save_metric_value_to_database]

/-- C3, witness: on the empty store the per-site partition for gsp 3
persists exactly one record with null value and zero count. -/
theorem c3_witness :
    make_mae_one_gsp emptyDb di0 3 =
      ({ emptyDb with metric_values := emptyDb.metric_values ++
          [⟨none, 0, "Daily Latest MAE", di0.start_datetime_utc,
            di0.end_datetime_utc, some 3⟩] }, none, 0) :=
  (c3_thm emptyDb di0 3).1 rfl

/-- C4: an observation whose value fails the self-consistency check
`value + 1 > value` (NaN) contributes nothing to the all-sites aggregate
MAE: adding such a row to the store leaves the aggregate's joined row set
— and hence both the averaged value and the sample count it returns —
unchanged. -/
theorem c4_thm (db : DB) (di : DatetimeInterval) (y : GSPYield)
    (hnan : fgt (fadd y.solar_generation_kw (some 1))
      y.solar_generation_kw = false) :
    allGspRows { db with gsp_yields := y :: db.gsp_yields } di =
        allGspRows db di ∧
      (make_mae_all_gsp { db with gsp_yields := y :: db.gsp_yields } di).2 =
        (make_mae_all_gsp db di).2 := by
  have hrows : allGspRows { db with gsp_yields := y :: db.gsp_yields } di =
      allGspRows db di := by
    simp only [allGspRows, gspForecastPairs]
    rw [List.flatMap_cons, List.filter_append]
    have hnil : (db.forecast_values_latest.map (fun f => (y, f))).filter
        (fun p : GSPYield × ForecastValueLatest =>
          p.1.gsp_id != 0 && p.2.gsp_id != 0 && p.2.gsp_id == p.1.gsp_id &&
          fgt (fadd p.1.solar_generation_kw (some 1))
            p.1.solar_generation_kw &&
          p.1.datetime_utc == p.2.target_time &&
          inInterval di p.1.datetime_utc &&
          p.1.regime == "day-after") = [] := by
      rw [List.filter_eq_nil_iff]
      intro a ha
      rcases List.mem_map.mp ha with ⟨f, _, rfl⟩
      simp [hnan]
    rw [hnil, List.nil_append]
  exact ⟨hrows, by simp [make_mae_all_gsp, hrows]⟩

/-- C4, witness: adding a NaN-valued reading for gsp 2 to a store that
already holds a valid matched pair changes neither the aggregate's row
set nor its returned value and count. -/
theorem c4_witness :
    allGspRows { db8 with gsp_yields := nanYield :: db8.gsp_yields } di0 =
        allGspRows db8 di0 ∧
      (make_mae_all_gsp { db8 with
          gsp_yields := nanYield :: db8.gsp_yields } di0).2 =
        (make_mae_all_gsp db8 di0).2 :=
  c4_thm db8 di0 nanYield rfl

/-- C6: the MAE error expression divides the kW ground-truth value by 1000
before differencing against the MW forecast value; a 1000 kW reading
matched with a 1 MW forecast contributes an absolute error of exactly 0,
and through the full per-site pipeline such a single matched pair yields
MAE 0 over 1 sample. -/
theorem c6_thm :
    (∀ f g : ℚ,
      make_mae_query_term (some f) (some g) = some |f - g / 1000|) ∧
      make_mae_query_term (some 1) (some 1000) = some 0 ∧
      (make_mae_one_gsp unitDb di0 1).2 = (some 0, 1) := by
  refine ⟨fun f g => rfl, ?_, ?_⟩
  · norm_num [make_mae_query_term, fabsv, fsub, fdivc]
  · have hrows : oneGspRows unitDb di0 1 = [(unitYield, unitForecast)] := by
      rfl
    simp only [make_mae_one_gsp, hrows]
    norm_num [make_mae_query_term, fabsv, fsub, fdivc, favg, fsum, fadd,
      List.map, unitYield, unitForecast]

/-- C7, counterexample: on an empty store the in-day and day-after values
are identical at every matched timestamp (there are none), yet the
revision-comparison MAE is NULL, not 0 — SQL `AVG` over the empty join is
NULL. -/
theorem c7_counterexample :
    (∀ p ∈ pvliveRows emptyDb di0 1,
        p.1.solar_generation_kw = p.2.solar_generation_kw) ∧
      (make_pvlive_mae emptyDb di0 1).2.1 = none ∧
      (make_pvlive_mae emptyDb di0 1).2.1 ≠ some 0 := by
  refine ⟨fun p hp => ?_, rfl, by decide⟩
  simp [pvliveRows, make_pvlive_subquery, emptyDb] at hp

/-- C7, amended: whenever the inner join on equal datetime matches at
least one timestamp and the in-day and day-after readings agree on a
finite numeric value at every matched timestamp, the revision-comparison
MAE is exactly 0 and the sample count is the number of matched
timestamps. -/
theorem c7_thm (db : DB) (di : DatetimeInterval) (g : ℕ)
    (hne : pvliveRows db di g ≠ [])
    (hid : ∀ p ∈ pvliveRows db di g, ∃ x : ℚ,
      p.1.solar_generation_kw = some x ∧
      p.2.solar_generation_kw = some x) :
    (make_pvlive_mae db di g).2.1 = some 0 ∧
      (make_pvlive_mae db di g).2.2 = (pvliveRows db di g).length := by
  constructor
  · show favg ((pvliveRows db di g).map (fun p =>
      fabsv (fsub (fdivc p.1.solar_generation_kw 1000)
        (fdivc p.2.solar_generation_kw 1000)))) = some 0
    refine favg_zeros _ (by simpa [List.map_eq_nil_iff] using hne) ?_
    intro v hv
    rcases List.mem_map.mp hv with ⟨p, hp, rfl⟩
    rcases hid p hp with ⟨x, h1, h2⟩
    norm_num [h1, h2, fdivc, fsub, fabsv]
  · simp [make_pvlive_mae]

/-- C7, witness: a store whose gsp-1 day-after and in-day readings are
both 500 kW at the one matched timestamp gives revision MAE 0 over 1
sample. -/
theorem c7_witness :
    (make_pvlive_mae db7 di0 1).2.1 = some 0 ∧
      (make_pvlive_mae db7 di0 1).2.2 = (pvliveRows db7 di0 1).length :=
  c7_thm db7 di0 1 (by decide)
    (fun p hp => by
      rw [show pvliveRows db7 di0 1 =
          [(⟨1, 30, some 500, "day-after"⟩, ⟨1, 30, some 500, "in-day"⟩)]
          from rfl, List.mem_singleton] at hp
      subst hp
      exact ⟨500, rfl, rfl⟩)

/-- C8: every row pair contributing to the all-sites aggregate has a
nonzero gsp id on both the observation and the forecast side, and the
aggregate's persisted `MetricValue` carries no location. -/
theorem c8_thm (db : DB) (di : DatetimeInterval) :
    (∀ p ∈ allGspRows db di, p.1.gsp_id ≠ 0 ∧ p.2.gsp_id ≠ 0) ∧
      (make_mae_all_gsp db di).1.metric_values =
        db.metric_values ++
          [⟨(make_mae_all_gsp db di).2.1, (make_mae_all_gsp db di).2.2,
            "Daily Latest MAE All GSPs", di.start_datetime_utc,
            di.end_datetime_utc, none⟩] := by
  constructor
  · intro p hp
    have hpred := (List.mem_filter.mp hp).2
    simp only [Bool.and_eq_true, bne_iff_ne, ne_eq] at hpred
    exact ⟨hpred.1.1.1.1.1.1, hpred.1.1.1.1.1.2⟩
  · rfl

/-- C8, witness: on a store with one valid matched pair at gsp 2 the
aggregate row set indeed avoids gsp 0 and the persisted record has no
location. -/
theorem c8_witness :
    (∀ p ∈ allGspRows db8 di0, p.1.gsp_id ≠ 0 ∧ p.2.gsp_id ≠ 0) ∧
      (make_mae_all_gsp db8 di0).1.metric_values =
        db8.metric_values ++
          [⟨(make_mae_all_gsp db8 di0).2.1, (make_mae_all_gsp db8 di0).2.2,
            "Daily Latest MAE All GSPs", di0.start_datetime_utc,
            di0.end_datetime_utc, none⟩] :=
  c8_thm db8 di0

/-- C9, counterexample: an invocation whose interval has start after end
is not rejected: with no horizon partitions it completes without any
error and persists 15 records, so store queries were issued; an
invocation with a negative maximum horizon likewise completes without
error. -/
theorem c9_counterexample :
    (make_mae emptyDb badDi 6 0).2 = none ∧
      (make_mae emptyDb badDi 6 0).1.metric_values.length = 15 ∧
      (make_mae emptyDb di0 6 (-30)).2 = none :=
  ⟨rfl, rfl, rfl⟩

/-- C9, amended: `make_mae` performs no configuration validation: an
invocation with a malformed interval (start at or after end) and a
non-positive maximum horizon proceeds to run every non-horizon partition,
persisting one record per partition (15 for `n_gsps = 6`), and is never
rejected before queries are issued. -/
theorem c9_thm (db : DB) (di : DatetimeInterval)
    (_hmal : di.end_datetime_utc ≤ di.start_datetime_utc)
    (h : ℤ) (hneg : h ≤ 0) :
    (make_mae db di 6 h).2 = none ∧
      (make_mae db di 6 h).1.metric_values.length =
        db.metric_values.length + 15 := by
  have hrange : pyRangeStep30 h = [] := by
    simp [pyRangeStep30, hneg]
  constructor
  · simp only [make_mae, hrange, List.map_nil,
      show (List.range (6 + 1) : List ℕ) = [0, 1, 2, 3, 4, 5, 6] from rfl,
      List.map_cons, List.cons_append, List.nil_append, List.append_nil,
      runPartitions, liftPartition, make_mae_one_gsp, make_mae_all_gsp,
      make_pvlive_mae, save_metric_value_to_database]
  · simp only [make_mae, hrange, List.map_nil,
      show (List.range (6 + 1) : List ℕ) = [0, 1, 2, 3, 4, 5, 6] from rfl,
      List.map_cons, List.cons_append, List.nil_append, List.append_nil,
      runPartitions, liftPartition, make_mae_one_gsp, make_mae_all_gsp,
      make_pvlive_mae, save_metric_value_to_database]
    simp [List.length_append]

/-- C9, witness: the concrete malformed invocation with interval start
1440 and end 0 and maximum horizon -30 completes without error after
persisting 15 records. -/
theorem c9_witness :
    (make_mae emptyDb badDi 6 (-30)).2 = none ∧
      (make_mae emptyDb badDi 6 (-30)).1.metric_values.length =
        emptyDb.metric_values.length + 15 :=
  c9_thm emptyDb badDi (by decide) (-30) (by decide)

/-- A NaN-valued day-after reading for gsp 1 at minute 30. -/
def y10 : GSPYield := ⟨1, 30, none, "day-after"⟩

/-- A NaN-valued in-day reading for gsp 1 at minute 30. -/
def yi10 : GSPYield := ⟨1, 30, none, "in-day"⟩

/-- A latest forecast for gsp 1 at minute 30 predicting 2 MW. -/
def f10 : ForecastValueLatest := ⟨1, 30, some 2⟩

/-- C10: the per-site current-forecast MAE and the revision-comparison
MAE apply no NaN validity filter — a matched row whose ground-truth value
fails `value + 1 > value` still belongs to their joined row sets, hence
contributes to their averaged value and sample count — while the
all-sites aggregate excludes that row. -/
theorem c10_thm (db : DB) (di : DatetimeInterval) (g : ℕ)
    (y yi : GSPYield) (f : ForecastValueLatest)
    (hy : y ∈ db.gsp_yields) (hf : f ∈ db.forecast_values_latest)
    (hyi : yi ∈ db.gsp_yields)
    (hgy : y.gsp_id = g) (hgf : f.gsp_id = g) (hgyi : yi.gsp_id = g)
    (hdt : y.datetime_utc = f.target_time)
    (hdti : yi.datetime_utc = y.datetime_utc)
    (hin : inInterval di y.datetime_utc = true)
    (hr : y.regime = "day-after") (hri : yi.regime = "in-day")
    (hnan : fgt (fadd y.solar_generation_kw (some 1))
      y.solar_generation_kw = false) :
    (y, f) ∈ oneGspRows db di g ∧ (y, yi) ∈ pvliveRows db di g ∧
      (y, f) ∉ allGspRows db di := by
  refine ⟨?_, ?_, ?_⟩
  · simp only [oneGspRows]
    refine List.mem_filter.mpr ⟨?_, ?_⟩
    · simp only [gspForecastPairs]
      exact List.mem_flatMap.mpr ⟨y, hy, List.mem_map.mpr ⟨f, hf, rfl⟩⟩
    · have hin2 : inInterval di f.target_time = true := hdt ▸ hin
      simp [hgy, hgf, hdt, hin, hin2, hr]
  · simp only [pvliveRows]
    refine List.mem_filter.mpr ⟨?_, ?_⟩
    · refine List.mem_flatMap.mpr ⟨y, ?_, List.mem_map.mpr ⟨yi, ?_, rfl⟩⟩
      · exact List.mem_filter.mpr ⟨hy, by simp [hgy, hin, hr]⟩
      · exact List.mem_filter.mpr ⟨hyi, by simp [hgyi, hdti, hin, hri]⟩
    · simp [hdti]
  · intro hmem
    have hpred := (List.mem_filter.mp hmem).2
    simp [hnan] at hpred

/-- C10, witness: a NaN-valued matched row for gsp 1 belongs to the
per-site row set and the revision row set but not to the all-sites
aggregate row set. -/
theorem c10_witness :
    (y10, f10) ∈ oneGspRows db10 di0 1 ∧
      (y10, yi10) ∈ pvliveRows db10 di0 1 ∧
      (y10, f10) ∉ allGspRows db10 di0 :=
  c10_thm db10 di0 1 y10 yi10 f10 (by decide) (by decide) (by decide)
    rfl rfl rfl rfl rfl rfl rfl rfl rfl

end NowcastingMetrics
